import Mathlib

/-!
Verification of the agent-failure detect/attribute/rollback/validate pipeline.

Shallow embedding of the Python sources:
- 00_03_b/scanner.py   (namespace Scanner): sensitive-content scan, writer attribution
- 00_05_e/rollback.py  (namespace Rollback): the rollback flow's own scanner
- 00_05_e/validate.py  (namespace Validate): recovery validation checks
- 00_05_b/validate.py  (namespace ValidateB): the lesson-begin validator variant
- 00_02_e/state_utils.py (namespace StateUtils): snapshot store

Modelling conventions:
- Python strings are Lean Strings; all character-level operations are done on
  the underlying character lists (code points), which is exactly how Python
  compares and slices strings.
- The regular expressions are embedded via a small backtracking engine (type
  RE below) with Python re semantics for the constructs these patterns use:
  ordered alternation, greedy counted repetition of a character class,
  literal sequences under IGNORECASE, word boundary, and one capture group.
  Character classes are modelled over ASCII, which covers every character
  the patterns distinguish.
- The filesystem is modelled as a partial map from paths to file contents
  (type Fs); os.path.exists is a membership test, shutil copies are map
  updates. Wall-clock timestamps are passed as explicit parameters.
-/

-- ---------------------------------------------------------------------------
-- Python string helpers, on character lists
-- ---------------------------------------------------------------------------

/-- The characters Python str.strip removes by default (ASCII whitespace). -/
def isSpaceC (c : Char) : Bool :=
  c = ' ' || c = '\t' || c = '\n' || c = '\r' || c = '\x0b' || c = '\x0c'

/-- Python regex word character, ASCII range: [a-zA-Z0-9_]. -/
def isWordChar (c : Char) : Bool := c.isAlphanum || c = '_'

def toStr (cs : List Char) : String := ⟨cs⟩

/-- Python str.strip(): drop leading and trailing whitespace. -/
def pystrip (s : String) : String :=
  toStr (((s.data.dropWhile isSpaceC).reverse.dropWhile isSpaceC).reverse)

/-- Python s.replace(chr a, chr b) for single characters. -/
def replaceChar (a b : Char) (s : String) : String :=
  toStr (s.data.map (fun c => if c = a then b else c))

/-- str(p).replace backslash-to-slash, as done throughout the sources. -/
def normSlash (s : String) : String := replaceChar '\\' '/' s

/-- Python s.endswith(suffix). -/
def endsWithS (s suffix : String) : Bool := suffix.data.isSuffixOf s.data

/-- os.path.basename: the component after the last slash. -/
def basenameS (p : String) : String := toStr ((p.data.splitOn '/').getLastD [])

/-- os.path.join for a directory and a (never absolute) file name. -/
def joinPath (a b : String) : String :=
  if a = "" then b
  else if endsWithS a "/" then a ++ b
  else a ++ "/" ++ b

/-- Python string comparison: lexicographic on code points. -/
def leChars : List Char → List Char → Bool
  | [], _ => true
  | _ :: _, [] => false
  | a :: as, b :: bs =>
    if a.val < b.val then true
    else if b.val < a.val then false
    else leChars as bs

def leS (a b : String) : Bool := leChars a.data b.data

/-- Insert x into a sorted list, before the first element it compares
less-or-equal to; elements comparing equal that were earlier in the input
stay earlier. -/
def insertLe (le : α → α → Bool) (x : α) : List α → List α
  | [] => [x]
  | y :: ys => if le x y then x :: y :: ys else y :: insertLe le x ys

/-- Stable sort with respect to le. Python list.sort is a stable sort; for
the total preorder used here any stable sort produces the same list, so a
stable insertion sort models it faithfully. -/
def pysort (le : α → α → Bool) : List α → List α
  | [] => []
  | x :: xs => insertLe le x (pysort le xs)

-- ---------------------------------------------------------------------------
-- A small backtracking regex engine with Python re semantics
-- ---------------------------------------------------------------------------

/-- Regex AST covering the constructs used by the patterns in the sources:
character class, greedy counted repetition of a class, sequence, ordered
alternation, word boundary, and a capture group. -/
inductive RE where
  | eps : RE
  | cls (p : Char → Bool) : RE
  | rep (p : Char → Bool) (lo : Nat) (hi : Option Nat) : RE
  | seq (a b : RE) : RE
  | alt (a b : RE) : RE
  | wb : RE
  | grp (r : RE) : RE

/-- A literal string under IGNORECASE: each character matched case-insensitively. -/
def lit (s : String) : RE :=
  s.data.foldr (fun c r => RE.seq (RE.cls (fun x => x.toLower = c.toLower)) r) RE.eps

/-- Last character of the consumed text, falling back to the previous one. -/
def lastOr (prev : Option Char) (m : List Char) : Option Char :=
  match m.getLast? with
  | some c => some c
  | none => prev

/-- All ways a regex can match a prefix of rest, in Python backtracking
priority order (leftmost alternative first, greedy repetition longest
first). Each result is (consumed text, capture of the group, remaining
text). prev is the character immediately before rest, for word boundaries. -/
def matchesRE : RE → Option Char → List Char → List (List Char × Option (List Char) × List Char)
  | .eps, _, rest => [([], none, rest)]
  | .cls p, _, rest =>
    match rest with
    | [] => []
    | c :: cs => if p c then [([c], none, cs)] else []
  | .rep p lo hi, _, rest =>
    let run := rest.takeWhile p
    let maxN := match hi with
      | none => run.length
      | some h => min run.length h
    if maxN < lo then []
    else (List.range (maxN + 1 - lo)).map (fun k =>
      (run.take (maxN - k), none, rest.drop (maxN - k)))
  | .seq a b, prev, rest =>
    (matchesRE a prev rest).flatMap (fun m1 =>
      (matchesRE b (lastOr prev m1.1) m1.2.2).map (fun m2 =>
        (m1.1 ++ m2.1, m1.2.1.orElse (fun _ => m2.2.1), m2.2.2)))
  | .alt a b, prev, rest => matchesRE a prev rest ++ matchesRE b prev rest
  | .wb, prev, rest =>
    let l := match prev with
      | some c => isWordChar c
      | none => false
    let r := match rest with
      | c :: _ => isWordChar c
      | [] => false
    if l ≠ r then [([], none, rest)] else []
  | .grp r, prev, rest =>
    (matchesRE r prev rest).map (fun m => (m.1, some m.1, m.2.2))

/-- Python re.match at the current position: the first (highest-priority)
way the pattern matches here, if any. -/
def pymatch (r : RE) (prev : Option Char) (rest : List Char) :
    Option (List Char × Option (List Char) × List Char) :=
  (matchesRE r prev rest).head?

/-- The scan loop of re.finditer: try a match at each position; on a match
yield it and continue after it (after an empty match, or a failure, advance
one character). The fuel argument is the remaining text length plus one,
which bounds the number of scan steps exactly. -/
def finditerAux (r : RE) : Nat → Option Char → List Char → Nat →
    List (Nat × List Char × Option (List Char))
  | 0, _, _, _ => []
  | fuel + 1, prev, rest, pos =>
    match pymatch r prev rest with
    | some m =>
      if m.1.isEmpty then
        (pos, m.1, m.2.1) ::
          (match rest with
           | [] => []
           | c :: cs => finditerAux r fuel (some c) cs (pos + 1))
      else
        (pos, m.1, m.2.1) :: finditerAux r fuel (lastOr prev m.1) m.2.2 (pos + m.1.length)
    | none =>
      match rest with
      | [] => []
      | c :: cs => finditerAux r fuel (some c) cs (pos + 1)

/-- re.finditer over a string: list of (start position, matched text, group). -/
def finditer (r : RE) (s : String) : List (Nat × List Char × Option (List Char)) :=
  finditerAux r (s.data.length + 1) none s.data 0

-- ---------------------------------------------------------------------------
-- JSON documents and flattening (flatten_text appears identically in
-- 00_03_b/scanner.py, 00_05_e/rollback.py and 00_05_e/validate.py)
-- ---------------------------------------------------------------------------

/-- A structured JSON document: None, strings, numbers (the artifacts use
integer numerics), booleans, sequences and maps. -/
inductive JVal where
  | null : JVal
  | str (s : String) : JVal
  | num (n : Int) : JVal
  | bool (b : Bool) : JVal
  | list (xs : List JVal) : JVal
  | obj (fields : List (String × JVal)) : JVal

mutual

/-- Structural equality of documents, as Python == compares parsed JSON
(dict equality is modelled order-sensitively; the fields the validator
compares are scalars and lists in these artifacts). -/
def JVal.beq : JVal → JVal → Bool
  | .null, .null => true
  | .str a, .str b => a == b
  | .num a, .num b => a == b
  | .bool a, .bool b => a == b
  | .list xs, .list ys => JVal.beqList xs ys
  | .obj fs, .obj gs => JVal.beqPairs fs gs
  | _, _ => false

def JVal.beqList : List JVal → List JVal → Bool
  | [], [] => true
  | x :: xs, y :: ys => JVal.beq x y && JVal.beqList xs ys
  | _, _ => false

def JVal.beqPairs : List (String × JVal) → List (String × JVal) → Bool
  | [], [] => true
  | (k, v) :: fs, (l, w) :: gs => k == l && JVal.beq v w && JVal.beqPairs fs gs
  | _, _ => false

end

instance : BEq JVal := ⟨JVal.beq⟩

mutual

/-- flatten_text: depth-first traversal producing one text blob. None gives
the empty string, strings pass through, scalars take their Python str form,
lists join their flattened elements with newlines, dicts emit each key then
the flattened value. -/
def flatten_text : JVal → String
  | .null => ""
  | .str s => s
  | .num n => toString n
  | .bool b => if b then "True" else "False"
  | .list xs => String.intercalate "\n" (flattenList xs)
  | .obj fs => String.intercalate "\n" (flattenPairs fs)

def flattenList : List JVal → List String
  | [] => []
  | x :: xs => flatten_text x :: flattenList xs

def flattenPairs : List (String × JVal) → List String
  | [] => []
  | (k, v) :: fs => k :: flatten_text v :: flattenPairs fs

end

/-- dict.get on a JSON object (keys are unique after JSON parsing). -/
def getField (obj : List (String × JVal)) (k : String) : Option JVal :=
  (obj.find? (fun kv => kv.1 == k)).map (fun kv => kv.2)

/-- One scanner finding: {"type", "match", "value"} (the match key is
spelled matched here because match is a Lean keyword). -/
structure Finding where
  type : String
  matched : String
  value : String
deriving DecidableEq

namespace Scanner

/-- EMAIL_RE from 00_03_b/scanner.py (the identical pattern text also
appears in 00_05_e/rollback.py and 00_05_e/validate.py):
backslash-b [A-Z0-9._%+-]+ at [A-Z0-9.-]+ dot [A-Z]{2,} backslash-b,
IGNORECASE. -/
def EMAIL_RE : RE :=
  .seq .wb
    (.seq (.rep (fun c => c.isAlphanum || c = '.' || c = '_' || c = '%' || c = '+' || c = '-') 1 none)
      (.seq (.cls (fun c => c = '@'))
        (.seq (.rep (fun c => c.isAlphanum || c = '.' || c = '-') 1 none)
          (.seq (.cls (fun c => c = '.'))
            (.seq (.rep Char.isAlpha 2 none) .wb)))))

/-- The cue alternation of CARD_LAST4_RE in 00_03_b/scanner.py:
ending+space+in | ending | last+optspace+4 | last+optspace+four |
card+space+ending | two or more asterisks. -/
def cue_scanner : RE :=
  .alt (.seq (lit "ending") (.seq (.rep isSpaceC 1 none) (lit "in")))
    (.alt (lit "ending")
      (.alt (.seq (lit "last") (.seq (.rep isSpaceC 0 none) (lit "4")))
        (.alt (.seq (lit "last") (.seq (.rep isSpaceC 0 none) (lit "four")))
          (.alt (.seq (lit "card") (.seq (.rep isSpaceC 1 none) (lit "ending")))
            (.rep (fun c => c = '*') 2 none)))))

/-- CARD_LAST4_RE from 00_03_b/scanner.py: a cue, then up to 8 non-digit
characters, then a captured group of exactly 4 digits. -/
def CARD_LAST4_RE : RE :=
  .seq cue_scanner
    (.seq (.rep (fun c => !c.isDigit) 0 (some 8))
      (.grp (.rep Char.isDigit 4 (some 4))))

/-- Build one card_last4 finding from a finditer result: the matched text is
stripped, the value is the captured group. -/
def mkCardFinding (m : Nat × List Char × Option (List Char)) : Finding :=
  ⟨"card_last4", pystrip (toStr m.2.1), toStr (m.2.2.getD [])⟩

/-- Build one email finding from a finditer result. -/
def mkEmailFinding (m : Nat × List Char × Option (List Char)) : Finding :=
  ⟨"email", toStr m.2.1, toStr m.2.1⟩

/-- scan_for_sensitive from 00_03_b/scanner.py: all CARD_LAST4_RE matches,
then all EMAIL_RE matches, in finditer order. -/
def scan_for_sensitive (text : String) : List Finding :=
  (finditer CARD_LAST4_RE text).map mkCardFinding
    ++ (finditer EMAIL_RE text).map mkEmailFinding

/-- The only key of tool_args the attribution code reads is "path". -/
structure ToolArgs where
  path : Option String
deriving DecidableEq

/-- One parsed event of the JSONL event log; absent keys are none. -/
structure Event where
  event_type : Option String
  tool_name : Option String
  run_id : Option String
  op_id : Option String
  ts : Option String
  agent_name : Option String
  output_path : Option String
  tool_args : Option ToolArgs
deriving DecidableEq

/-- The attribution record returned by attribute_writer. -/
structure Attribution where
  match_mode : Option String
  target_output_arg : String
  output_path_in_log : Option String
  run_id : Option String
  agent_name : Option String
  agent_run_started_ts : Option String
  tool_name : String
  op_id : Option String
  tool_invoked_ts : Option String
  tool_completed_ts : Option String
  tool_args : Option ToolArgs
deriving DecidableEq

/-- Python truthiness of an optional string: present and non-empty. -/
def truthy : Option String → Bool
  | none => false
  | some s => !(s == "")

/-- Python A or B on optional strings: A if truthy, else B. -/
def orFalsy (a b : Option String) : Option String := if truthy a then a else b

/-- norm_path from scanner.py: unify separators, trim whitespace. -/
def norm_path (p : String) : String := pystrip (normSlash p)

/-- evt.get output_path, falling back to tool_args path when falsy. -/
def eventOutp (e : Event) : Option String :=
  if truthy e.output_path then e.output_path
  else match e.tool_args with
    | some a => a.path
    | none => none

/-- The same lookup followed by the loop's falsy skip (empty paths are
treated as absent). -/
def eventOutpT (e : Event) : Option String :=
  match eventOutp e with
  | some s => if s = "" then none else some s
  | none => none

/-- The three-tier test the backward scan applies to one event: a
write_local_json completion whose recorded output path matches the target
exactly, by suffix containment in either direction, or by basename. -/
def matchTier (e : Event) (targetNorm targetBase : String) : Option String :=
  if e.event_type ≠ some "tool_completed" then none
  else if e.tool_name ≠ some "write_local_json" then none
  else match eventOutpT e with
    | none => none
    | some outp =>
      let outpNorm := norm_path outp
      if outpNorm = targetNorm then some "exact_path"
      else if endsWithS outpNorm targetNorm || endsWithS targetNorm outpNorm then some "suffix_path"
      else if basenameS outpNorm = targetBase then some "basename"
      else none

/-- The newest-to-oldest search for the matching write completion. Returns
the log prefix up to and including the match (the range the later backward
walks scan), the matching event, and the tier label. -/
def findLastMatch : List Event → String → String → Option (List Event × Event × String)
  | [], _, _ => none
  | e :: es, tn, tb =>
    match findLastMatch es tn tb with
    | some (pre, w, m) => some (e :: pre, w, m)
    | none =>
      match matchTier e tn tb with
      | some m => some ([e], e, m)
      | none => none

/-- attribute_writer from 00_03_b/scanner.py: locate the most recent
matching write completion, then walk backwards in the same run for the
agent_run_started event and the corresponding tool_invoked event
(preferring the completion's op_id, else the nearest prior invoke). -/
def attribute_writer (events : List Event) (output_path : String) : Option Attribution :=
  let targetNorm := norm_path output_path
  let targetBase := basenameS targetNorm
  match findLastMatch events targetNorm targetBase with
  | none => none
  | some (pre, w, mode) =>
    let run_id := w.run_id
    let op_id := w.op_id
    let revPre := pre.reverse
    let agentEvt := revPre.find? (fun e =>
      (!truthy run_id || e.run_id == run_id)
        && (e.event_type == some "agent_run_started") && truthy e.agent_name)
    let invokedEvt := revPre.find? (fun e =>
      (!truthy run_id || e.run_id == run_id)
        && (e.event_type == some "tool_invoked")
        && (e.tool_name == some "write_local_json")
        && (if truthy op_id then e.op_id == op_id else true))
    some
      { match_mode := some mode
        target_output_arg := output_path
        output_path_in_log := eventOutp w
        run_id := run_id
        agent_name := agentEvt.bind (fun e => e.agent_name)
        agent_run_started_ts := agentEvt.bind (fun e => e.ts)
        tool_name := "write_local_json"
        op_id := orFalsy op_id (invokedEvt.bind (fun e => e.op_id))
        tool_invoked_ts := invokedEvt.bind (fun e => e.ts)
        tool_completed_ts := w.ts
        tool_args := invokedEvt.bind (fun e => e.tool_args) }

end Scanner

namespace Rollback

/-- EMAIL_RE of 00_05_e/rollback.py: the pattern text is character for
character the one in 00_03_b/scanner.py. -/
def EMAIL_RE : RE := Scanner.EMAIL_RE

/-- CARD_LAST4_RE from 00_05_e/rollback.py. NOTE: this pattern differs from
the scanner component: the cue alternation is only ending+space+in |
card+space+ending | two or more asterisks, the separator is optional
whitespace (not up to 8 non-digits), and a word boundary follows the four
digits. -/
def CARD_LAST4_RE : RE :=
  .seq
    (.alt (.seq (lit "ending") (.seq (.rep isSpaceC 1 none) (lit "in")))
      (.alt (.seq (lit "card") (.seq (.rep isSpaceC 1 none) (lit "ending")))
        (.rep (fun c => c = '*') 2 none)))
    (.seq (.rep isSpaceC 0 none)
      (.seq (.grp (.rep Char.isDigit 4 (some 4))) .wb))

def mkCardFinding (m : Nat × List Char × Option (List Char)) : Finding :=
  ⟨"card_last4", pystrip (toStr m.2.1), toStr (m.2.2.getD [])⟩

def mkEmailFinding (m : Nat × List Char × Option (List Char)) : Finding :=
  ⟨"email", toStr m.2.1, toStr m.2.1⟩

/-- scan_for_sensitive from 00_05_e/rollback.py: same loop structure as the
scanner component, over this file's own regexes. -/
def scan_for_sensitive (text : String) : List Finding :=
  (finditer CARD_LAST4_RE text).map mkCardFinding
    ++ (finditer EMAIL_RE text).map mkEmailFinding

end Rollback

/-- One parsed entry of the recovery action log (JSONL); absent keys are
none. -/
structure ActionEvent where
  event_type : Option String
  ts : Option String
  output_path : Option String
  snapshot_path : Option String
  quarantined_path : Option String
deriving DecidableEq

namespace Validate

/-- The regexes of 00_05_e/validate.py carry the same pattern text as
00_03_b/scanner.py. -/
def EMAIL_RE : RE := Scanner.EMAIL_RE

def CARD_LAST4_RE : RE := Scanner.CARD_LAST4_RE

def mkCardFinding (m : Nat × List Char × Option (List Char)) : Finding :=
  ⟨"card_last4", pystrip (toStr m.2.1), toStr (m.2.2.getD [])⟩

def mkEmailFinding (m : Nat × List Char × Option (List Char)) : Finding :=
  ⟨"email", toStr m.2.1, toStr m.2.1⟩

/-- scan_sensitive from 00_05_e/validate.py. -/
def scan_sensitive (text : String) : List Finding :=
  (finditer CARD_LAST4_RE text).map mkCardFinding
    ++ (finditer EMAIL_RE text).map mkEmailFinding

def REQUIRED_TOP_LEVEL_FIELDS : List String :=
  ["input_file", "budget", "key_needs", "summary", "output_file", "created_at"]

/-- Python isinstance(x, list) on a parsed JSON value. -/
def isListJ : JVal → Bool
  | .list _ => true
  | _ => false

/-- Python isinstance(x, str) on a parsed JSON value. -/
def isStrJ : JVal → Bool
  | .str _ => true
  | _ => false

/-- validate_schema from 00_05_e/validate.py: required top-level fields
present, key_needs a list, created_at a string of length at least 10. -/
def validate_schema (obj : List (String × JVal)) : List String :=
  (REQUIRED_TOP_LEVEL_FIELDS.filterMap (fun field =>
    if (getField obj field).isNone then some ("Missing required field: " ++ field) else none))
  ++ (match getField obj "key_needs" with
      | some v => if !isListJ v then ["Field key_needs must be a list."] else []
      | none => [])
  ++ (match getField obj "created_at" with
      | some (.str s) => if s.data.length < 10 then ["Field created_at must be a timestamp string."] else []
      | some _ => ["Field created_at must be a timestamp string."]
      | none => [])

/-- validate_paths from 00_05_e/validate.py: output_file must be a string
that, after slash-normalization, equals the expected path or ends with it. -/
def validate_paths (obj : List (String × JVal)) (expected_output_path : String) : List String :=
  match getField obj "output_file" with
  | some (.str out_file) =>
    let out_norm := normSlash out_file
    let exp_norm := normSlash expected_output_path
    if !(out_norm = exp_norm || endsWithS out_norm exp_norm) then
      ["output_file does not match expected path. output_file=" ++ out_file]
    else []
  | _ => ["output_file must be a string."]

/-- str(e.get(key, "")) for the action-log fields read with a default. -/
def getS (o : Option String) : String := o.getD ""

/-- Python truthiness of an optional string argument (the quarantine
directory): present and non-empty. -/
def truthyS : Option String → Bool
  | none => false
  | some s => !(s == "")

/-- The per-event checks applied to the chosen most-recent recovery event:
snapshot basename consistency, and existence of the quarantined file when a
quarantine directory is supplied (fs_exists models os.path.exists). -/
def recoveryEvtIssues (evt : ActionEvent) (snapshot_path : String)
    (quarantine_dir : Option String) (fs_exists : String → Bool) : List String :=
  (if snapshot_path ≠ "" && getS evt.snapshot_path ≠ ""
      && basenameS snapshot_path ≠ basenameS (getS evt.snapshot_path) then
    ["Most recent recovery_performed event used a different snapshot (logged="
      ++ basenameS (getS evt.snapshot_path) ++ " expected=" ++ basenameS snapshot_path ++ ")."]
  else [])
  ++ (if truthyS quarantine_dir then
        match evt.quarantined_path with
        | none => ["Recovery event missing quarantined_path."]
        | some qp =>
          if qp = "" then ["Recovery event missing quarantined_path."]
          else if fs_exists qp then []
          else if fs_exists (joinPath (quarantine_dir.getD "") (basenameS qp)) then []
          else ["Quarantined file not found: " ++ qp]
      else [])

/-- validate_recovery_logged from 00_05_e/validate.py: filter the action
events to recovery_performed entries whose output path suffix-matches the
validated path; fail when none; otherwise check the most recent one (sorted
by ts descending, stable as Python list.sort). -/
def validate_recovery_logged (action_events : List ActionEvent) (output_path : String)
    (snapshot_path : String) (quarantine_dir : Option String)
    (fs_exists : String → Bool) : List String :=
  let output_norm := normSlash output_path
  let candidates := action_events.filter (fun e =>
    (e.event_type == some "recovery_performed")
      && endsWithS (normSlash (getS e.output_path)) output_norm)
  match pysort (fun a b => leS (getS b.ts) (getS a.ts)) candidates with
  | [] => ["No recovery_performed event found in action log for this output_path."]
  | evt :: _ => recoveryEvtIssues evt snapshot_path quarantine_dir fs_exists

/-- The fixed field set of the baseline-parity check in main. -/
def compare_fields : List String := ["summary", "key_needs", "budget", "input_file", "output_file"]

/-- The parity differences main computes between restored and baseline
artifacts. -/
def parityDiffs (current_obj baseline_obj : List (String × JVal)) : List String :=
  compare_fields.filterMap (fun f =>
    if !(getField current_obj f == getField baseline_obj f) then
      some ("Field differs from baseline: " ++ f)
    else none)

/-- The overall READY decision of main in 00_05_e/validate.py: the
conjunction of the ok flags of the six recorded checks, in the order main
stores them: schema, paths, sensitive_scan, baseline_sensitive_scan,
baseline_parity, recovery_log. -/
def overall_ok (current_obj baseline_obj : List (String × JVal))
    (output_path baseline_path : String) (action_events : List ActionEvent)
    (quarantine_dir : Option String) (fs_exists : String → Bool) : Bool :=
  (validate_schema current_obj).isEmpty
  && (validate_paths current_obj output_path).isEmpty
  && (scan_sensitive (flatten_text (.obj current_obj))).isEmpty
  && (scan_sensitive (flatten_text (.obj baseline_obj))).isEmpty
  && (parityDiffs current_obj baseline_obj).isEmpty
  && (validate_recovery_logged action_events output_path baseline_path quarantine_dir fs_exists).isEmpty

end Validate

namespace ValidateB

/-- validate_recovery_logged from 00_05_b/validate.py. The no-candidates
branch is the lesson's TODO stub: the source comment says to append an
issue when no rollback event is found, but the code returns the empty issue
list unchanged. The rest is identical to 00_05_e/validate.py. -/
def validate_recovery_logged (action_events : List ActionEvent) (output_path : String)
    (snapshot_path : String) (quarantine_dir : Option String)
    (fs_exists : String → Bool) : List String :=
  let output_norm := normSlash output_path
  let candidates := action_events.filter (fun e =>
    (e.event_type == some "recovery_performed")
      && endsWithS (normSlash (Validate.getS e.output_path)) output_norm)
  match pysort (fun a b => leS (Validate.getS b.ts) (Validate.getS a.ts)) candidates with
  | [] => []
  | evt :: _ => Validate.recoveryEvtIssues evt snapshot_path quarantine_dir fs_exists

end ValidateB

-- ---------------------------------------------------------------------------
-- Snapshot store (00_02_e/state_utils.py) over an explicit filesystem map
-- ---------------------------------------------------------------------------

/-- The filesystem: a partial map from path to file content. -/
def Fs : Type := String → Option String

def fsGet (fs : Fs) (p : String) : Option String := fs p

def fsSet (fs : Fs) (p v : String) : Fs :=
  fun q => if q = p then some v else fs q

namespace StateUtils

/-- The snapshot file name built in snapshot_file:
basename.label.timestamp.run_id.json. -/
def snap_name (base label ts run_id : String) : String :=
  base ++ "." ++ label ++ "." ++ ts ++ "." ++ run_id ++ ".json"

/-- snapshot_file from 00_02_e/state_utils.py: copy the source into the
snapshot directory under the timestamped name, or return the empty string
when the source does not exist. The timestamp ts stands for utc_ts_slug()
(second-resolution UTC); ensure_dir has no effect on the path map. -/
def snapshot_file (src_path snapshots_dir label run_id : String) (ts : String) (fs : Fs) :
    String × Fs :=
  match fsGet fs src_path with
  | none => ("", fs)
  | some content =>
    let snap_path := joinPath snapshots_dir (snap_name (basenameS src_path) label ts run_id)
    (snap_path, fsSet fs snap_path content)

/-- restore_snapshot from 00_02_e/state_utils.py: raises FileNotFoundError
(modelled as Except.error, leaving the filesystem untouched) when the
snapshot path is empty or absent; otherwise overwrites the destination with
the snapshot content. -/
def restore_snapshot (snapshot_path dest_path : String) (fs : Fs) : Except String Fs :=
  if snapshot_path = "" then .error ("Snapshot not found: " ++ snapshot_path)
  else match fsGet fs snapshot_path with
    | none => .error ("Snapshot not found: " ++ snapshot_path)
    | some content => .ok (fsSet fs dest_path content)

end StateUtils

-- ---------------------------------------------------------------------------
-- Concrete inputs used by the claim theorems
-- ---------------------------------------------------------------------------

/-- A log with exactly one write-tool completion, recording output path
/a/out.json. -/
def c2Events : List Scanner.Event :=
  [{ event_type := some "tool_completed", tool_name := some "write_local_json"
     run_id := some "r1", op_id := some "op1", ts := some "2025-01-01T00:00:00Z"
     agent_name := none, output_path := some "/a/out.json", tool_args := none }]

/-- A filesystem holding one artifact out.json with content v1. -/
def c4fs0 : Fs := fun p => if p = "out.json" then some "v1" else none

/-- First snapshot of out.json, taken at some second with run id r1. -/
def c4s1 : String × Fs :=
  StateUtils.snapshot_file "out.json" "snaps" "before" "r1" "20250101T000000Z" c4fs0

/-- The artifact is then mutated to content v2. -/
def c4fsMut : Fs := fsSet c4s1.2 "out.json" "v2"

/-- Second snapshot of the mutated artifact, same second, same run id r1. -/
def c4s2 : String × Fs :=
  StateUtils.snapshot_file "out.json" "snaps" "before" "r1" "20250101T000000Z" c4fsMut

/-- A filesystem mapping no path at all. -/
def emptyFs : Fs := fun _ => none

/-- A baseline document whose summary holds a card-suffix disclosure. -/
def c10base : List (String × JVal) := [("summary", .str "card ending 4821")]

-- ---------------------------------------------------------------------------
-- Claim theorems
-- ---------------------------------------------------------------------------

/-- Claim C1 (code bug evidence): on an action log with no
recovery_performed entry at all, the 00_05_b validator variant returns an
EMPTY issue list (its no-candidates branch is a TODO stub), while the
00_05_e validator returns the failure issue the claim describes. -/
theorem c1_recovery_log_stub :
    ValidateB.validate_recovery_logged [] "out.json" "snap.json" none (fun _ => false) = []
    ∧ Validate.validate_recovery_logged [] "out.json" "snap.json" none (fun _ => false)
        = ["No recovery_performed event found in action log for this output_path."] := by
  constructor
  · rfl
  · rfl

/-- Claim C2 (counterexample): attribution of bare target out.json against
the single-completion log succeeds, but with match tier suffix_path, not
the basename tier the claim states. -/
theorem c2_basename_claim_false :
    (Scanner.attribute_writer c2Events "out.json").map (fun a => a.match_mode)
      = some (some "suffix_path")
    ∧ (some "suffix_path" : Option String) ≠ some "basename" := by
  constructor
  · rfl
  · decide

/-- Claim C2 (amended): attribution on bare out.json against that log
succeeds via the suffix tier, carrying the completion's run id, op id and
logged output path; the basename tier is never consulted because
/a/out.json string-ends with out.json, so tier (b) fires first. -/
theorem c2_suffix_tier :
    Scanner.attribute_writer c2Events "out.json" = some
      { match_mode := some "suffix_path"
        target_output_arg := "out.json"
        output_path_in_log := some "/a/out.json"
        run_id := some "r1"
        agent_name := none
        agent_run_started_ts := none
        tool_name := "write_local_json"
        op_id := some "op1"
        tool_invoked_ts := none
        tool_completed_ts := some "2025-01-01T00:00:00Z"
        tool_args := none } := by
  rfl

/-- Claim C3 (counterexample): on the text "last 4: 4821" the scanner
component yields a card_last4 finding, while the rollback flow's scanner
yields no finding at all — its cue set lacks the "last 4" cue, so the two
scanners are not equivalent. -/
theorem c3_scanners_differ :
    Scanner.scan_for_sensitive "last 4: 4821"
        = [⟨"card_last4", "last 4: 4821", "4821"⟩]
    ∧ Rollback.scan_for_sensitive "last 4: 4821" = [] := by
  constructor
  · rfl
  · rfl

/-- Claim C4 (counterexample): two snapshot_file calls on the same artifact
within the same second carrying the SAME run id produce the same snapshot
name, so the second copy silently overwrites the first snapshot: after the
second call the first snapshot path holds the mutated content v2, not the
originally snapshotted v1. -/
theorem c4_same_run_id_overwrite :
    c4s1.1 = c4s2.1
    ∧ c4s1.1 ≠ ""
    ∧ fsGet c4s1.2 c4s1.1 = some "v1"
    ∧ fsGet c4s2.2 c4s1.1 = some "v2" := by
  refine ⟨rfl, ?_, rfl, rfl⟩
  decide

/-- Claim C5 (counterexample): in "a@b.co ending in 4821" the email match
starts at position 0 and the card-suffix match at position 7, yet
scan_for_sensitive returns the card_last4 finding FIRST: findings are
grouped by detector family, not returned in global match order. -/
theorem c5_family_grouping_violates_match_order :
    (finditer Scanner.EMAIL_RE "a@b.co ending in 4821").map (fun m => m.1) = [0]
    ∧ (finditer Scanner.CARD_LAST4_RE "a@b.co ending in 4821").map (fun m => m.1) = [7]
    ∧ Scanner.scan_for_sensitive "a@b.co ending in 4821"
        = [⟨"card_last4", "ending in 4821", "4821"⟩, ⟨"email", "a@b.co", "a@b.co"⟩] := by
  refine ⟨rfl, rfl, rfl⟩

/-- Claim C6 (counterexample): with self-declared output_file a/out.json
and expected path out.json, validate_paths passes (the code tests whether
the DECLARED path ends with the expected one), although the declared path
neither equals the expected path nor is a suffix of it as the claim
requires. -/
theorem c6_passes_without_spec_suffix :
    Validate.validate_paths [("output_file", .str "a/out.json")] "out.json" = []
    ∧ ("a/out.json" : String) ≠ "out.json"
    ∧ endsWithS "out.json" "a/out.json" = false := by
  refine ⟨rfl, ?_, rfl⟩
  decide

-- ---------------------------------------------------------------------------
-- Shared helper lemmas
-- ---------------------------------------------------------------------------

theorem string_append_left_cancel {p a b : String} (h : p ++ a = p ++ b) : a = b := by
  have hd := congrArg String.data h
  simp only [String.data_append] at hd
  exact String.ext (List.append_cancel_left hd)

theorem string_append_right_cancel {a b s : String} (h : a ++ s = b ++ s) : a = b := by
  have hd := congrArg String.data h
  simp only [String.data_append] at hd
  exact String.ext (List.append_cancel_right hd)

theorem snap_name_run_ne {b l t r1 r2 : String} (h : r1 ≠ r2) :
    StateUtils.snap_name b l t r1 ≠ StateUtils.snap_name b l t r2 := by
  intro he
  apply h
  unfold StateUtils.snap_name at he
  exact string_append_left_cancel (string_append_right_cancel he)

theorem joinPath_ne (d : String) {n1 n2 : String} (h : n1 ≠ n2) :
    joinPath d n1 ≠ joinPath d n2 := by
  intro he
  apply h
  unfold joinPath at he
  by_cases h0 : d = ""
  · rw [if_pos h0, if_pos h0] at he
    exact he
  · rw [if_neg h0, if_neg h0] at he
    by_cases h1 : endsWithS d "/" = true
    · rw [if_pos h1, if_pos h1] at he
      exact string_append_left_cancel he
    · rw [if_neg h1, if_neg h1] at he
      exact string_append_left_cancel he

theorem fsGet_fsSet_ne (fs : Fs) {p q : String} (v : String) (h : q ≠ p) :
    fsGet (fsSet fs p v) q = fsGet fs q := by
  unfold fsGet fsSet
  rw [if_neg h]

theorem flattenList_eq_map : ∀ xs : List JVal, flattenList xs = xs.map flatten_text := by
  intro xs
  induction xs with
  | nil => rfl
  | cons x t ih => rw [flattenList, ih, List.map_cons]

theorem findLastMatch_none (tn tb : String) :
    ∀ events : List Scanner.Event,
      (∀ e ∈ events, Scanner.matchTier e tn tb = none) →
      Scanner.findLastMatch events tn tb = none := by
  intro events h
  induction events with
  | nil => rfl
  | cons e es ih =>
    have he : Scanner.matchTier e tn tb = none := h e (List.mem_cons_self e es)
    have hes := ih (fun x hx => h x (List.mem_cons_of_mem e hx))
    rw [Scanner.findLastMatch, hes, he]

-- ---------------------------------------------------------------------------
-- Claims C7, C8, C9, C10
-- ---------------------------------------------------------------------------

/-- Claim C7: for every event list containing no write-tool completion
matching the target path under any of the three tiers (the per-event test
matchTier yields none for every event, which holds in particular for the
empty list), attribute_writer returns none — the unattributed null result,
not an error. -/
theorem c7_unattributed_is_none (events : List Scanner.Event) (p : String)
    (h : ∀ e ∈ events,
      Scanner.matchTier e (Scanner.norm_path p) (basenameS (Scanner.norm_path p)) = none) :
    Scanner.attribute_writer events p = none := by
  have hn := findLastMatch_none _ _ events h
  simp only [Scanner.attribute_writer, hn]

/-- Witness for C7 at the empty log. -/
theorem c7_unattributed_witness :
    (∀ e ∈ ([] : List Scanner.Event),
      Scanner.matchTier e (Scanner.norm_path "out.json")
        (basenameS (Scanner.norm_path "out.json")) = none)
    ∧ Scanner.attribute_writer [] "out.json" = none := by
  refine ⟨?_, c7_unattributed_is_none [] "out.json" ?_⟩ <;>
    intro e he <;> cases he

/-- Claim C8: snapshot_file on a source path that does not exist returns
the empty string and leaves the store untouched (no exception), while
restore_snapshot on an empty or non-existent snapshot path fails with the
FileNotFoundError message and does not modify the destination. -/
theorem c8_snapshot_restore_error_contract (fs : Fs) (src dir label rid ts snap dest : String)
    (h1 : fsGet fs src = none) (h2 : snap = "" ∨ fsGet fs snap = none) :
    StateUtils.snapshot_file src dir label rid ts fs = ("", fs)
    ∧ StateUtils.restore_snapshot snap dest fs
        = Except.error ("Snapshot not found: " ++ snap) := by
  constructor
  · unfold StateUtils.snapshot_file
    rw [h1]
  · unfold StateUtils.restore_snapshot
    by_cases hs : snap = ""
    · rw [if_pos hs]
    · rcases h2 with h | h
      · exact absurd h hs
      · rw [if_neg hs, h]

/-- Witness for C8: the empty filesystem, a missing source, and the empty
snapshot path. -/
theorem c8_error_contract_witness :
    fsGet emptyFs "src.json" = none
    ∧ (("" : String) = "" ∨ fsGet emptyFs "" = none)
    ∧ (StateUtils.snapshot_file "src.json" "snaps" "before" "r1" "t" emptyFs = ("", emptyFs)
       ∧ StateUtils.restore_snapshot "" "dest.json" emptyFs
           = Except.error ("Snapshot not found: " ++ "")) :=
  ⟨rfl, Or.inl rfl,
    c8_snapshot_restore_error_contract emptyFs "src.json" "snaps" "before" "r1" "t" "" "dest.json"
      rfl (Or.inl rfl)⟩

/-- Claim C9: flattening is order-preserving for sequences (a list
flattens to its elements flattened in order, joined by newlines), the
identity on strings, hence idempotent (re-flattening a flattened value
returns it unchanged), and None flattens to the empty string. -/
theorem c9_flatten_props :
    (∀ xs : List JVal, flatten_text (.list xs) = String.intercalate "\n" (xs.map flatten_text))
    ∧ (∀ s : String, flatten_text (.str s) = s)
    ∧ (∀ x : JVal, flatten_text (.str (flatten_text x)) = flatten_text x)
    ∧ flatten_text .null = "" := by
  refine ⟨?_, fun s => rfl, fun x => rfl, rfl⟩
  intro xs
  rw [flatten_text, flattenList_eq_map]

/-- Claim C10: whenever the sensitive scan of the flattened baseline
snapshot has any finding, the baseline_sensitive_scan check fails and the
overall decision of the validator main is NOT READY (overall_ok is false),
whatever the other checks say. -/
theorem c10_baseline_scan_gates_ready (cur base : List (String × JVal)) (op bp : String)
    (aes : List ActionEvent) (qd : Option String) (fse : String → Bool)
    (h : Validate.scan_sensitive (flatten_text (.obj base)) ≠ []) :
    Validate.overall_ok cur base op bp aes qd fse = false := by
  unfold Validate.overall_ok
  cases hcase : Validate.scan_sensitive (flatten_text (.obj base)) with
  | nil => exact absurd hcase h
  | cons a t => simp [hcase]

/-- Witness for C10: a baseline whose summary field holds the disclosure
"card ending 4821". -/
theorem c10_baseline_scan_witness :
    Validate.scan_sensitive (flatten_text (.obj c10base)) ≠ []
    ∧ Validate.overall_ok [] c10base "o" "b" [] none (fun _ => false) = false := by
  refine ⟨?_, c10_baseline_scan_gates_ready [] c10base "o" "b" [] none (fun _ => false) ?_⟩ <;>
    decide

/-- Claim C4 (amended): two snapshot_file calls on the same artifact whose
timestamps fall within the same second receive distinct snapshot paths
PROVIDED the two calls carry distinct run ids — the run id is the only
disambiguator in the name — and then the second call leaves the first
snapshot untouched. (With equal run ids the names collide and the second
call overwrites the first snapshot; see the counterexample.) -/
theorem c4_distinct_run_ids_distinct_names (fs0 : Fs) (src dir label t r1 r2 : String)
    (hr : r1 ≠ r2) (hsrc : (fsGet fs0 src).isSome = true) :
    (StateUtils.snapshot_file src dir label r1 t fs0).1
      ≠ (StateUtils.snapshot_file src dir label r2 t
          (StateUtils.snapshot_file src dir label r1 t fs0).2).1
    ∧ fsGet (StateUtils.snapshot_file src dir label r2 t
          (StateUtils.snapshot_file src dir label r1 t fs0).2).2
        (StateUtils.snapshot_file src dir label r1 t fs0).1
      = fsGet (StateUtils.snapshot_file src dir label r1 t fs0).2
        (StateUtils.snapshot_file src dir label r1 t fs0).1 := by
  obtain ⟨c, hc⟩ := Option.isSome_iff_exists.mp hsrc
  have e1 : StateUtils.snapshot_file src dir label r1 t fs0
      = (joinPath dir (StateUtils.snap_name (basenameS src) label t r1),
         fsSet fs0 (joinPath dir (StateUtils.snap_name (basenameS src) label t r1)) c) := by
    unfold StateUtils.snapshot_file
    rw [hc]
  have hsrc2 : fsGet (fsSet fs0 (joinPath dir (StateUtils.snap_name (basenameS src) label t r1)) c) src
      = some c := by
    unfold fsGet fsSet
    split
    · rfl
    · exact hc
  have e2 : StateUtils.snapshot_file src dir label r2 t
        (fsSet fs0 (joinPath dir (StateUtils.snap_name (basenameS src) label t r1)) c)
      = (joinPath dir (StateUtils.snap_name (basenameS src) label t r2),
         fsSet (fsSet fs0 (joinPath dir (StateUtils.snap_name (basenameS src) label t r1)) c)
           (joinPath dir (StateUtils.snap_name (basenameS src) label t r2)) c) := by
    unfold StateUtils.snapshot_file
    rw [hsrc2]
  have hne : joinPath dir (StateUtils.snap_name (basenameS src) label t r1)
      ≠ joinPath dir (StateUtils.snap_name (basenameS src) label t r2) :=
    joinPath_ne dir (snap_name_run_ne hr)
  constructor
  · rw [e1, e2]
    exact hne
  · rw [e1, e2]
    exact fsGet_fsSet_ne _ _ hne

/-- Witness for the amended C4: same second, run ids r1 and r2. -/
theorem c4_distinct_run_ids_witness :
    ("r1" : String) ≠ "r2"
    ∧ (fsGet c4fs0 "out.json").isSome = true
    ∧ ((StateUtils.snapshot_file "out.json" "snaps" "before" "r1" "20250101T000000Z" c4fs0).1
        ≠ (StateUtils.snapshot_file "out.json" "snaps" "before" "r2" "20250101T000000Z"
            (StateUtils.snapshot_file "out.json" "snaps" "before" "r1" "20250101T000000Z" c4fs0).2).1
       ∧ fsGet (StateUtils.snapshot_file "out.json" "snaps" "before" "r2" "20250101T000000Z"
            (StateUtils.snapshot_file "out.json" "snaps" "before" "r1" "20250101T000000Z" c4fs0).2).2
          (StateUtils.snapshot_file "out.json" "snaps" "before" "r1" "20250101T000000Z" c4fs0).1
         = fsGet (StateUtils.snapshot_file "out.json" "snaps" "before" "r1" "20250101T000000Z" c4fs0).2
            (StateUtils.snapshot_file "out.json" "snaps" "before" "r1" "20250101T000000Z" c4fs0).1) :=
  ⟨by decide, by decide,
    c4_distinct_run_ids_distinct_names c4fs0 "out.json" "snaps" "before" "20250101T000000Z"
      "r1" "r2" (by decide) (by decide)⟩

theorem finditerAux_start_ge (r : RE) :
    ∀ (fuel : Nat) (prev : Option Char) (rest : List Char) (pos : Nat)
      (x : Nat × List Char × Option (List Char)),
      x ∈ finditerAux r fuel prev rest pos → pos ≤ x.1 := by
  intro fuel
  induction fuel with
  | zero =>
    intro prev rest pos x hx
    simp only [finditerAux] at hx
    cases hx
  | succ n ih =>
    intro prev rest pos x hx
    simp only [finditerAux] at hx
    rcases hp : pymatch r prev rest with _ | m
    · rw [hp] at hx
      dsimp only at hx
      cases rest with
      | nil => cases hx
      | cons c cs =>
        have := ih (some c) cs (pos + 1) x hx
        omega
    · rw [hp] at hx
      dsimp only at hx
      by_cases hm : m.1.isEmpty
      · rw [if_pos hm] at hx
        rcases List.mem_cons.mp hx with he | ht
        · rw [he]
        · cases rest with
          | nil => cases ht
          | cons c cs =>
            have := ih (some c) cs (pos + 1) x ht
            omega
      · rw [if_neg hm] at hx
        rcases List.mem_cons.mp hx with he | ht
        · rw [he]
        · have := ih (lastOr prev m.1) m.2.2 (pos + m.1.length) x ht
          omega

theorem finditerAux_pairwise (r : RE) :
    ∀ (fuel : Nat) (prev : Option Char) (rest : List Char) (pos : Nat),
      List.Pairwise (fun a b => a.1 < b.1) (finditerAux r fuel prev rest pos) := by
  intro fuel
  induction fuel with
  | zero =>
    intro prev rest pos
    simp only [finditerAux]
    exact List.Pairwise.nil
  | succ n ih =>
    intro prev rest pos
    simp only [finditerAux]
    rcases hp : pymatch r prev rest with _ | m
    · dsimp only
      cases rest with
      | nil => exact List.Pairwise.nil
      | cons c cs => exact ih (some c) cs (pos + 1)
    · dsimp only
      by_cases hm : m.1.isEmpty
      · rw [if_pos hm]
        cases rest with
        | nil => simp
        | cons c cs =>
          refine List.Pairwise.cons ?_ (ih (some c) cs (pos + 1))
          intro y hy
          have := finditerAux_start_ge r n (some c) cs (pos + 1) y hy
          omega
      · rw [if_neg hm]
        refine List.Pairwise.cons ?_ (ih (lastOr prev m.1) m.2.2 (pos + m.1.length))
        intro y hy
        have hge := finditerAux_start_ge r n (lastOr prev m.1) m.2.2 (pos + m.1.length) y hy
        have hlen : 1 ≤ m.1.length := by
          cases hml : m.1 with
          | nil => rw [hml] at hm; exact absurd rfl hm
          | cons a l => simp
        omega

theorem finditer_pairwise (r : RE) (s : String) :
    List.Pairwise (fun a b => a.1 < b.1) (finditer r s) :=
  finditerAux_pairwise r (s.data.length + 1) none s.data 0

theorem filter_email_card_scanner (l : List (Nat × List Char × Option (List Char))) :
    (l.map Scanner.mkCardFinding).filter (fun f => f.type == "email") = [] := by
  have hfalse : (("card_last4" : String) == "email") = false := by decide
  induction l with
  | nil => rfl
  | cons x t ih => simp [Scanner.mkCardFinding, List.filter_cons, hfalse, ih]

theorem filter_email_card_rollback (l : List (Nat × List Char × Option (List Char))) :
    (l.map Rollback.mkCardFinding).filter (fun f => f.type == "email") = [] := by
  have hfalse : (("card_last4" : String) == "email") = false := by decide
  induction l with
  | nil => rfl
  | cons x t ih => simp [Rollback.mkCardFinding, List.filter_cons, hfalse, ih]

theorem filter_email_email_scanner (l : List (Nat × List Char × Option (List Char))) :
    (l.map Scanner.mkEmailFinding).filter (fun f => f.type == "email")
      = l.map Scanner.mkEmailFinding := by
  have htrue : (("email" : String) == "email") = true := by decide
  induction l with
  | nil => rfl
  | cons x t ih => simp [Scanner.mkEmailFinding, List.filter_cons, htrue, ih]

theorem filter_email_email_rollback (l : List (Nat × List Char × Option (List Char))) :
    (l.map Rollback.mkEmailFinding).filter (fun f => f.type == "email")
      = l.map Rollback.mkEmailFinding := by
  have htrue : (("email" : String) == "email") = true := by decide
  induction l with
  | nil => rfl
  | cons x t ih => simp [Rollback.mkEmailFinding, List.filter_cons, htrue, ih]

theorem map_type_card_scanner (l : List (Nat × List Char × Option (List Char))) :
    (l.map Scanner.mkCardFinding).map Finding.type = List.replicate l.length "card_last4" := by
  induction l with
  | nil => rfl
  | cons x t ih => simp [Scanner.mkCardFinding, ih, List.replicate_succ]

theorem map_type_email_scanner (l : List (Nat × List Char × Option (List Char))) :
    (l.map Scanner.mkEmailFinding).map Finding.type = List.replicate l.length "email" := by
  induction l with
  | nil => rfl
  | cons x t ih => simp [Scanner.mkEmailFinding, ih, List.replicate_succ]

/-- Claim C3 (amended): the two scanners are NOT equivalent — the rollback
scanner's card cue set omits "last 4", "last four" and bare "ending" and
only allows whitespace before the digits (see the counterexample) — but
their email detectors agree on every document, and on the cue forms both
patterns share (such as "card ending 4821") the two scanners produce the
identical card_last4 finding. -/
theorem c3_email_family_agrees :
    (∀ t : String,
      (Rollback.scan_for_sensitive t).filter (fun f => f.type == "email")
        = (Scanner.scan_for_sensitive t).filter (fun f => f.type == "email"))
    ∧ Rollback.scan_for_sensitive "card ending 4821"
        = [⟨"card_last4", "card ending 4821", "4821"⟩]
    ∧ Scanner.scan_for_sensitive "card ending 4821"
        = [⟨"card_last4", "card ending 4821", "4821"⟩] := by
  refine ⟨?_, rfl, rfl⟩
  intro t
  unfold Rollback.scan_for_sensitive Scanner.scan_for_sensitive
  rw [List.filter_append, List.filter_append, filter_email_card_rollback,
    filter_email_card_scanner, filter_email_email_rollback, filter_email_email_scanner]
  rfl

/-- Claim C5 (amended): scan_for_sensitive returns the findings grouped by
detector family — all card_last4 findings first, then all email findings —
each family ordered by strictly increasing match position over the
flattened text, and without deduplication: repeated matches each produce
their own finding (e.g. the doubled disclosure below yields two identical
findings). A cross-family earlier email match does NOT precede a later
card match (see the counterexample). -/
theorem c5_grouped_match_order :
    (∀ t : String,
      (Scanner.scan_for_sensitive t).map Finding.type
        = List.replicate (finditer Scanner.CARD_LAST4_RE t).length "card_last4"
          ++ List.replicate (finditer Scanner.EMAIL_RE t).length "email"
      ∧ List.Pairwise (fun a b => a.1 < b.1) (finditer Scanner.CARD_LAST4_RE t)
      ∧ List.Pairwise (fun a b => a.1 < b.1) (finditer Scanner.EMAIL_RE t))
    ∧ Scanner.scan_for_sensitive "ending 1111 ending 1111"
        = [⟨"card_last4", "ending 1111", "1111"⟩, ⟨"card_last4", "ending 1111", "1111"⟩] := by
  refine ⟨?_, rfl⟩
  intro t
  refine ⟨?_, finditer_pairwise _ _, finditer_pairwise _ _⟩
  unfold Scanner.scan_for_sensitive
  rw [List.map_append, map_type_card_scanner, map_type_email_scanner]

/-- Claim C6 (amended): validate_paths passes exactly when the artifact's
self-declared output_file is a string that, after replacing backslashes
with slashes, either equals the externally expected path or ENDS WITH it
as a string suffix — i.e. the expected path must be a suffix of the
declared one, the reverse of the direction the claim states — and in every
other case (wrong direction, mismatch, or non-string / missing field) it
returns an issue. -/
theorem c6_validate_paths_iff (obj : List (String × JVal)) (exp : String) :
    Validate.validate_paths obj exp = []
      ↔ ∃ s, getField obj "output_file" = some (.str s)
          ∧ (normSlash s = normSlash exp ∨ endsWithS (normSlash s) (normSlash exp) = true) := by
  unfold Validate.validate_paths
  cases hf : getField obj "output_file" with
  | none => simp
  | some v =>
    cases v with
    | str s =>
      by_cases hc : (normSlash s = normSlash exp ∨ endsWithS (normSlash s) (normSlash exp) = true)
      · have hb : (decide (normSlash s = normSlash exp)
            || endsWithS (normSlash s) (normSlash exp)) = true := by
          rcases hc with h | h
          · simp [h]
          · simp [h]
        simp [hb, hc]
      · have hb : (decide (normSlash s = normSlash exp)
            || endsWithS (normSlash s) (normSlash exp)) = false := by
          push_neg at hc
          simp [hc.1, hc.2]
        simp [hb]
        push_neg at hc
        exact ⟨hc.1, by simpa using hc.2⟩
    | null => simp
    | num n => simp
    | bool b => simp
    | list xs => simp
    | obj fs => simp
